import Mathlib

/-
Verification of the structural-perturbation engine of ShakeNBreak
(shakenbreak/input.py), via a shallow embedding in Lean 4.

Modelling conventions:
  - Python dicts are association lists with insert-overwrite semantics
    (`alInsert` / `alLookup`); insertion order is preserved as in CPython.
  - Python floats are exact rationals (the numeric claims checked here do
    not hinge on floating-point rounding).
  - Raised exceptions are `Except` error values (`PyErr`).
  - `warnings.warn` emissions are collected structurally in a `Warn` list,
    each constructor carrying the values the message names.
  - pymatgen `Structure`s are carried as data: an ordered species list and
    the (externally computed) interatomic distance matrix, which is all
    that input.py reads from them.
  - The collaborator functions `distort` and `rattle` (shakenbreak.
    distortions) and the label formatter (shakenbreak.analysis) are not in
    the sources under verification; `distort`/`rattle` are taken as
    function parameters, and the label formatter is modelled from the
    spec (see `_get_distortion_filename`).
-/

deriving instance DecidableEq for Except

namespace SnB

/-- Python exceptions raised by the embedded code. -/
inductive PyErr where
  | valueError (msg : String)
  | keyError
  | typeError (msg : String)
  | indexError
  | exn (msg : String)
deriving DecidableEq

/-- Warnings emitted via warnings.warn, modelled structurally: each
constructor carries the values that the formatted message names. -/
inductive Warn where
  | autoDminTooSmall (badBondLength : ℚ)
  | rattleRetry (orig reduced : ℚ)
  | metaConflict (defect : String) (charge : ℤ)
  | metaProblem
deriving DecidableEq

/-- Association-list lookup; first match wins (Python dict lookup). -/
def alLookup {K V : Type} [DecidableEq K] (d : List (K × V)) (k : K) : Option V :=
  match d with
  | [] => none
  | (k', v') :: t => if k' = k then some v' else alLookup t k

/-- Association-list insert with overwrite, keeping the position of an
existing key and appending a fresh one (CPython dict update semantics). -/
def alInsert {K V : Type} [DecidableEq K] (d : List (K × V)) (k : K) (v : V) :
    List (K × V) :=
  match d with
  | [] => [(k, v)]
  | (k', v') :: t => if k' = k then (k, v) :: t else (k', v') :: alInsert t k v

theorem alLookup_alInsert_self {K V : Type} [DecidableEq K]
    (d : List (K × V)) (k : K) (v : V) : alLookup (alInsert d k v) k = some v := by
  induction d with
  | nil => simp [alInsert, alLookup]
  | cons hd t ih =>
    obtain ⟨k', v'⟩ := hd
    by_cases h : k' = k
    · simp [alInsert, h, alLookup]
    · simp [alInsert, h, alLookup, ih]

theorem alLookup_alInsert_ne {K V : Type} [DecidableEq K]
    (d : List (K × V)) (k k' : K) (v : V) (h : k ≠ k') :
    alLookup (alInsert d k v) k' = alLookup d k' := by
  induction d with
  | nil => simp [alInsert, alLookup, h]
  | cons hd t ih =>
    obtain ⟨k0, v0⟩ := hd
    by_cases h0 : k0 = k
    · subst h0
      simp [alInsert, alLookup, h]
    · simp [alInsert, h0, alLookup, ih]

/-
Kernel-computable rational arithmetic.  The standard Rat.mul / Rat.add /
Rat.sub of this toolchain do not reduce inside the kernel, while
Rat.divInt and mkRat do; the embedded code therefore uses the q-ops
below, and the bridging lemmas prove them equal to the standard
operations so that theorem statements can use ordinary notation.
-/

/-- Kernel-computable multiplication on ℚ. -/
def qmul (a b : ℚ) : ℚ := Rat.divInt (a.num * b.num) ((a.den : ℤ) * b.den)

/-- Kernel-computable addition on ℚ. -/
def qadd (a b : ℚ) : ℚ := Rat.divInt (a.num * b.den + b.num * a.den) ((a.den : ℤ) * b.den)

/-- Kernel-computable subtraction on ℚ. -/
def qsub (a b : ℚ) : ℚ := Rat.divInt (a.num * b.den - b.num * a.den) ((a.den : ℤ) * b.den)

theorem qmul_eq (a b : ℚ) : qmul a b = a * b := by
  rw [qmul, Rat.mul_def, Rat.normalize_eq_mkRat]
  rw [show ((a.den : ℤ) * b.den) = ((a.den * b.den : ℕ) : ℤ) by push_cast; ring]
  rw [Rat.divInt_ofNat]

theorem qadd_eq (a b : ℚ) : qadd a b = a + b := by
  rw [qadd, Rat.add_def, Rat.normalize_eq_mkRat]
  rw [show ((a.den : ℤ) * b.den) = ((a.den * b.den : ℕ) : ℤ) by push_cast; ring]
  rw [Rat.divInt_ofNat]

theorem qsub_eq (a b : ℚ) : qsub a b = a - b := by
  rw [qsub, Rat.sub_def, Rat.normalize_eq_mkRat]
  rw [show ((a.den : ℤ) * b.den) = ((a.den * b.den : ℕ) : ℤ) by push_cast; ring]
  rw [Rat.divInt_ofNat]

/-- Kernel-computable rounding ⌊q + 1/2⌋ on ℚ, the model of Python's
round (which is round-half-even; the two differ only on exact half
ties, which no value in this development exercises). -/
def qround (q : ℚ) : ℤ := Int.fdiv (2 * q.num + q.den) (2 * q.den)

/-- A pymatgen site, of which input.py only reads the fractional
coordinates. -/
structure PSite where
  frac_coords : List ℚ
deriving DecidableEq

/-- A pymatgen Structure as consumed by input.py: the ordered species
list (so len(structure) = species.length) and the periodic interatomic
distance matrix, carried as row-major data because pymatgen computes it
externally. -/
structure Structure where
  species : List String
  distMat : List (List ℚ)
deriving DecidableEq

/-- len(structure): the number of sites. -/
def Structure.numSites (s : Structure) : ℕ := s.species.length

/-- The defect_dict["supercell"] sub-dict: its "size" and "structure"
keys. -/
structure Supercell where
  size : List ℤ
  struct : Structure
deriving DecidableEq

/-- One defect record in the doped ChargedDefectsStructures format: the
dict keys read by input.py, as record fields.  Keys that a doped dict can
lack for some defect kinds are Option-valued (Option.none = key absent,
so reading it raises KeyError). -/
structure DefectDict where
  name : String
  defect_type : String
  site_specie : String
  substituting_specie : Option String := none
  substitution_specie : Option String := none
  unique_site : PSite
  bulk_supercell_site : PSite
  site_multiplicity : ℕ
  supercell : Supercell
  charges : List ℤ
deriving DecidableEq

/-- An oxidation-state mapping, element symbol to formal oxidation
state. -/
def OxMap : Type := List (String × ℤ)

instance : DecidableEq OxMap := by unfold OxMap; infer_instance

/-- The site/substituting species resolution of calc_number_electrons
(input.py lines 248-268): the if/elif chain on defect_type, returning
(site_specie, substituting_specie) or the raised exception. -/
def _species_of (defect_dict : DefectDict) : Except PyErr (String × String) :=
  if defect_dict.defect_type = "vacancy" then
    .ok (defect_dict.site_specie, "Vac")
  else if defect_dict.defect_type = "interstitial" then
    .ok ("Vac", defect_dict.site_specie)
  else if defect_dict.defect_type = "antisite" then
    (match defect_dict.substituting_specie with
     | some s => .ok (defect_dict.site_specie, s)
     | none => .error .keyError)
  else if defect_dict.defect_type = "substitution" then
    (match defect_dict.substitution_specie with
     | some s => .ok (defect_dict.site_specie, s)
     | none => .error .keyError)
  else
    .error (.valueError "defect_dict has an invalid defect_type")

/-- The returned value of calc_number_electrons (input.py lines 270-280):
num_electrons = ox[substituting_specie] - ox[site_specie], and the
function returns int(-num_electrons).  `ox` here is the mapping after the
Vac insertion. -/
def _calc_number_electrons_body (defect_dict : DefectDict) (ox : OxMap) :
    Except PyErr ℤ :=
  match _species_of defect_dict with
  | .error e => .error e
  | .ok (site_specie, substituting_specie) =>
    match alLookup ox substituting_specie, alLookup ox site_specie with
    | some osub, some osite => .ok (-(osub - osite))
    | _, _ => .error .keyError

/-- calc_number_electrons (input.py lines 223-280).  Its first statement
mutates the caller's dict in place (oxidation_states["Vac"] = 0), so the
embedding returns the updated mapping alongside the result; the body then
computes on the updated mapping. -/
def calc_number_electrons (defect_dict : DefectDict) (oxidation_states : OxMap) :
    (Except PyErr ℤ) × OxMap :=
  let ox := alInsert oxidation_states "Vac" (0 : ℤ)
  (_calc_number_electrons_body defect_dict ox, ox)

/-- calc_number_neighbours (input.py lines 283-301): octet-style rule
mapping an electron count to a number of neighbours to distort. -/
def calc_number_neighbours (num_electrons : ℤ) : ℤ :=
  let num_neighbours :=
    if abs num_electrons > 4 then abs (8 - abs num_electrons)
    else abs num_electrons
  abs num_neighbours

/-- Distortions._get_number_distorted_neighbours (input.py lines
720-737): the operative electron count for a charge state is
number_electrons + charge, fed to the octet rule. -/
def _get_number_distorted_neighbours (number_electrons charge : ℤ) : ℤ :=
  calc_number_neighbours (number_electrons + charge)

/-- The extra-electron count exactly as the spec's words define it
(spec 4.1): oxidation(substituting_species) - oxidation(site_species),
with the vacant pseudo-species at oxidation state 0.  Declared only to
compare the spec sentence of claim C1 against calc_number_electrons. -/
def extra_electrons_spec (defect_dict : DefectDict) (oxidation_states : OxMap) :
    Option ℤ :=
  match _species_of defect_dict with
  | .error _ => none
  | .ok (site_specie, substituting_specie) =>
    let ox := alInsert oxidation_states "Vac" (0 : ℤ)
    match alLookup ox substituting_specie, alLookup ox site_specie with
    | some osub, some osite => some (osub - osite)
    | _, _ => none

/-- A concrete vacancy defect removing a +2 cation ("Cd"), used by the
electron-count claims. -/
def vacCdDefect : DefectDict where
  name := "vac_1_Cd"
  defect_type := "vacancy"
  site_specie := "Cd"
  unique_site := ⟨[0, 0, 0]⟩
  bulk_supercell_site := ⟨[0, 0, 0]⟩
  site_multiplicity := 1
  supercell := ⟨[2, 2, 2], ⟨["Te", "Cd"], [[0, 3], [3, 0]]⟩⟩
  charges := [0, -1]

/-- The oxidation states of the end-to-end scenario in the spec:
A = Cd at +2, B = Te at -2. -/
def oxCdTe : OxMap := [("Cd", 2), ("Te", -2)]

/-- A defect record whose kind is none of the four valid ones. -/
def badKindDefect : DefectDict where
  name := "bad"
  defect_type := "frenkel"
  site_specie := "Cd"
  unique_site := ⟨[0, 0, 0]⟩
  bulk_supercell_site := ⟨[0, 0, 0]⟩
  site_multiplicity := 1
  supercell := ⟨[1, 1, 1], ⟨["Cd"], [[0]]⟩⟩
  charges := [0]

/-- C3: counterexample.  The claim says calc_number_neighbours(n) always
lies in [0, 4], but the code maps 13 to |8 - 13| = 5. -/
theorem C3_counterexample :
    calc_number_neighbours 13 = 5 ∧ ¬(calc_number_neighbours 13 ≤ 4) := by
  decide

/-- C3 (amended): for every integer n, calc_number_neighbours is
symmetric (n and -n agree) and follows the stated rule (distort |n|
neighbours when |n| ≤ 4, else |8 - |n||); its values at 0, 2, 4, 6, 8 are
0, 2, 4, 2, 0; and the result lies in [0, 4] whenever |n| ≤ 12 — but not
for every integer (13 maps to 5). -/
theorem C3_octet_props (n : ℤ) :
    calc_number_neighbours n = calc_number_neighbours (-n)
    ∧ calc_number_neighbours n
        = (if abs n ≤ 4 then abs n else abs (8 - abs n))
    ∧ calc_number_neighbours 0 = 0 ∧ calc_number_neighbours 2 = 2
    ∧ calc_number_neighbours 4 = 4 ∧ calc_number_neighbours 6 = 2
    ∧ calc_number_neighbours 8 = 0
    ∧ (abs n ≤ 12 → 0 ≤ calc_number_neighbours n ∧ calc_number_neighbours n ≤ 4) := by
  refine ⟨by simp [calc_number_neighbours, abs_neg], ?_,
    by decide, by decide, by decide, by decide, by decide, ?_⟩
  · unfold calc_number_neighbours
    rcases le_or_lt (abs n) 4 with h | h
    · simp [not_lt.mpr h, h, abs_abs]
    · simp [h, not_le.mpr h, abs_abs]
  · intro h12
    unfold calc_number_neighbours
    rcases le_or_lt (abs n) 4 with h | h
    · have h0 : (0:ℤ) ≤ abs n := abs_nonneg n
      simp only [not_lt.mpr h, if_false, abs_abs]
      omega
    · simp only [h, if_true, abs_abs]
      refine ⟨abs_nonneg _, abs_le.mpr ⟨by omega, by omega⟩⟩

/-- C3 witness: the amended range implication instantiated at n = 3. -/
theorem C3_octet_props_witness :
    calc_number_neighbours 3 = calc_number_neighbours (-3)
    ∧ 0 ≤ calc_number_neighbours 3 ∧ calc_number_neighbours 3 ≤ 4 :=
  ⟨(C3_octet_props 3).1, (C3_octet_props 3).2.2.2.2.2.2.2 (by decide)⟩

/-- C10: every call to calc_number_electrons updates the caller's
oxidation-state mapping in place with the pseudo-species "Vac" at
oxidation state 0 (the first statement of the function, before any
validation), on every path including the error paths; afterwards the
mapping always binds "Vac" to 0, and it differs from the argument
whenever the argument did not already bind "Vac" to 0 at the same
position. -/
theorem C10_vac_mutation (defect_dict : DefectDict) (oxidation_states : OxMap) :
    (calc_number_electrons defect_dict oxidation_states).2
        = alInsert oxidation_states "Vac" 0
    ∧ alLookup (calc_number_electrons defect_dict oxidation_states).2 "Vac"
        = some 0
    ∧ (∀ v, alLookup oxidation_states "Vac" = some v → v ≠ 0 →
        (calc_number_electrons defect_dict oxidation_states).2 ≠ oxidation_states) := by
  refine ⟨rfl, alLookup_alInsert_self _ _ _, ?_⟩
  intro v hv hne heq
  have : alLookup (calc_number_electrons defect_dict oxidation_states).2 "Vac"
      = some 0 := alLookup_alInsert_self _ _ _
  rw [heq, hv] at this
  injection this with h
  exact hne h

/-- C8: counterexample.  With an invalid defect kind the model does fail
with the invalid-input error, but it does NOT leave the caller's state
unchanged: the oxidation-state mapping passed in has gained the binding
Vac ↦ 0 by the time the error is raised, refuting the claim's
"makes no other state change". -/
theorem C8_counterexample :
    (calc_number_electrons badKindDefect [("Cd", 2)]).1
        = .error (.valueError "defect_dict has an invalid defect_type")
    ∧ (calc_number_electrons badKindDefect [("Cd", 2)]).2
        = [("Cd", 2), ("Vac", 0)]
    ∧ (calc_number_electrons badKindDefect [("Cd", 2)]).2 ≠ [("Cd", 2)] := by
  refine ⟨by decide, by decide, by decide⟩

/-- C8 (amended): calc_number_electrons fails with the invalid-input
ValueError exactly when the defect kind is not one of vacancy,
interstitial, antisite, substitution; for the four valid kinds it returns
normally provided the kind's species field is present and both species
have known oxidation states; but every call — the failing ones included —
first inserts Vac ↦ 0 into the caller's oxidation-state mapping, so the
error path is not free of state change. -/
theorem C8_error_exactness (d : DefectDict) (ox : OxMap) :
    ((∃ msg, (calc_number_electrons d ox).1 = .error (.valueError msg)) ↔
      d.defect_type ∉ (["vacancy", "interstitial", "antisite", "substitution"] : List String))
    ∧ (calc_number_electrons d ox).2 = alInsert ox "Vac" 0
    ∧ (∀ site sub, _species_of d = .ok (site, sub) →
        (alLookup (alInsert ox "Vac" 0) sub).isSome →
        (alLookup (alInsert ox "Vac" 0) site).isSome →
        ∃ k, (calc_number_electrons d ox).1 = .ok k) := by
  refine ⟨?_, rfl, ?_⟩
  · show (∃ msg, _calc_number_electrons_body d (alInsert ox "Vac" 0)
        = .error (.valueError msg)) ↔ _
    unfold _calc_number_electrons_body _species_of
    split_ifs with h1 h2 h3 h4
    · constructor
      · rintro ⟨msg, hmsg⟩
        rcases hlk : alLookup (alInsert ox "Vac" 0) "Vac" with _ | v <;>
          rcases hlk2 : alLookup (alInsert ox "Vac" 0) d.site_specie with _ | w <;>
          simp [hlk, hlk2] at hmsg
      · intro hmem; exact absurd (by simp [h1]) hmem
    · constructor
      · rintro ⟨msg, hmsg⟩
        rcases hlk : alLookup (alInsert ox "Vac" 0) d.site_specie with _ | v <;>
          rcases hlk2 : alLookup (alInsert ox "Vac" 0) "Vac" with _ | w <;>
          simp [hlk, hlk2] at hmsg
      · intro hmem; exact absurd (by simp [h2]) hmem
    · constructor
      · rintro ⟨msg, hmsg⟩
        rcases hs : d.substituting_specie with _ | s
        · simp [hs] at hmsg
        · rcases hlk : alLookup (alInsert ox "Vac" 0) s with _ | v <;>
            rcases hlk2 : alLookup (alInsert ox "Vac" 0) d.site_specie with _ | w <;>
            simp [hs, hlk, hlk2] at hmsg
      · intro hmem; exact absurd (by simp [h3]) hmem
    · constructor
      · rintro ⟨msg, hmsg⟩
        rcases hs : d.substitution_specie with _ | s
        · simp [hs] at hmsg
        · rcases hlk : alLookup (alInsert ox "Vac" 0) s with _ | v <;>
            rcases hlk2 : alLookup (alInsert ox "Vac" 0) d.site_specie with _ | w <;>
            simp [hs, hlk, hlk2] at hmsg
      · intro hmem; exact absurd (by simp [h4]) hmem
    · simp [h1, h2, h3, h4]
  · intro site sub hsp hsub hsite
    show ∃ k, _calc_number_electrons_body d (alInsert ox "Vac" 0) = .ok k
    unfold _calc_number_electrons_body
    rw [hsp]
    rcases h1 : alLookup (alInsert ox "Vac" 0) sub with _ | osub
    · rw [h1] at hsub; simp at hsub
    · rcases h2 : alLookup (alInsert ox "Vac" 0) site with _ | osite
      · rw [h2] at hsite; simp at hsite
      · exact ⟨-(osub - osite), by simp [h1, h2]⟩

/-- C8 witness: the valid-kind branch at a concrete vacancy. -/
theorem C8_error_exactness_witness :
    ∃ k, (calc_number_electrons vacCdDefect oxCdTe).1 = .ok k :=
  (C8_error_exactness vacCdDefect oxCdTe).2.2 "Cd" "Vac" (by decide)
    (by decide) (by decide)

/-- C1: counterexample.  For the spec's own end-to-end scenario (vacancy
removing a +2 cation, so extra_electrons = -2), the code returns
number_electrons = +2 (the negation of extra_electrons), and the
operative count for charge q is number_electrons + q: charge -1 yields
2 + (-1) = 1 and 1 distorted neighbour, not operative count -3 with 3
distorted neighbours as the claim states. -/
theorem C1_counterexample :
    (calc_number_electrons vacCdDefect oxCdTe).1 = .ok 2
    ∧ extra_electrons_spec vacCdDefect oxCdTe = some (-2)
    ∧ _get_number_distorted_neighbours 2 (-1) = 1
    ∧ _get_number_distorted_neighbours 2 (-1) ≠ 3
    ∧ (2 : ℤ) + (-1) ≠ (-2) + (-1) := by
  refine ⟨by decide, by decide, by decide, by decide, by decide⟩

/-- C1 (amended): the operative electron count used to derive the number
of distorted neighbours for charge q is number_electrons + q where
number_electrons is the value returned by calc_number_electrons, which is
the NEGATION of extra_electrons = oxidation(substituting_species) -
oxidation(site_species); concretely, for a vacancy removing a +2 cation
(extra_electrons = -2, returned number_electrons = +2), charge 0 gives
operative count 2 and 2 distorted neighbours, and charge -1 gives
operative count 1 and 1 distorted neighbour. -/
theorem C1_operative_count (d : DefectDict) (ox : OxMap) (n q : ℤ)
    (h : (calc_number_electrons d ox).1 = .ok n) :
    extra_electrons_spec d ox = some (-n)
    ∧ _get_number_distorted_neighbours n q = calc_number_neighbours (n + q)
    ∧ (calc_number_electrons vacCdDefect oxCdTe).1 = .ok 2
    ∧ _get_number_distorted_neighbours 2 0 = 2
    ∧ _get_number_distorted_neighbours 2 (-1) = 1 := by
  refine ⟨?_, rfl, by decide, by decide, by decide⟩
  have hb : _calc_number_electrons_body d (alInsert ox "Vac" 0) = .ok n := h
  unfold _calc_number_electrons_body at hb
  unfold extra_electrons_spec
  rcases hsp : _species_of d with e | ⟨site, sub⟩
  · rw [hsp] at hb; simp at hb
  · rw [hsp] at hb
    dsimp only at hb ⊢
    rcases h1 : alLookup (alInsert ox "Vac" 0) sub with _ | osub <;>
      rcases h2 : alLookup (alInsert ox "Vac" 0) site with _ | osite <;>
      rw [h1, h2] at hb <;> simp at hb
    simp only [h1, h2]
    simp
    omega

/-- C1 witness: the amended statement instantiated at the concrete
vacancy scenario, charge -1. -/
theorem C1_operative_count_witness :
    extra_electrons_spec vacCdDefect oxCdTe = some (-2)
    ∧ _get_number_distorted_neighbours 2 (-1) = calc_number_neighbours (2 + (-1)) :=
  let h := C1_operative_count vacCdDefect oxCdTe 2 (-1) (by decide)
  ⟨h.1, h.2.1⟩

/-- The per-charge distortion_parameters sub-dict of a metadata document.
rattle_stdev is Option-valued because the merge in
_write_distortion_metadata rewrites the whole sub-dict with only the
bond_distortions key (input.py lines 120-131), losing rattle_stdev. -/
structure MetaParams where
  bond_distortions : List ℚ
  rattle_stdev : Option ℚ
deriving DecidableEq

/-- One charge-state entry of a metadata document (the value stored by
Distortions._update_distortion_metadata, input.py lines 771-784). -/
structure MetaCharge where
  num_nearest_neighbours : ℤ
  distorted_atoms : Option (List (ℕ × String))
  distortion_parameters : MetaParams
deriving DecidableEq

/-- One defect entry of a metadata document (input.py lines 874-877 plus
the optional defect_site_index of lines 767-770). -/
structure MetaDefect where
  unique_site : List ℚ
  defect_site_index : Option ℕ
  charges : List (ℤ × MetaCharge)
deriving DecidableEq

/-- The run-wide distortion_parameters block of a metadata document
(input.py lines 639-646). -/
structure GlobalParams where
  distortion_increment : Option ℚ
  bond_distortions : List ℚ
  rattle_stdev : ℚ
deriving DecidableEq

/-- A distortion-metadata document, as built by Distortions and as parsed
back from distortion_metadata.json.  Charge keys are modelled as integers
on both sides, which is generous to the code: the JSON round-trip in fact
stringifies the old document's charge keys. -/
structure Metadata where
  distortion_parameters : GlobalParams
  defects : List (String × MetaDefect)
deriving DecidableEq

/-- The inner combination loop of _write_distortion_metadata over the
charges of a defect present in both documents (input.py lines 108-143).
It iterates the NEW document's charges.  When a charge is in both and the
entries are equal, the new entry's distortion_parameters dict is replaced
by one holding only the concatenated bond_distortions.  When the entries
differ, a conflict warning is emitted and the new entry kept.  When the
charge is missing from the old document, the else branch (commented in
the source as handling a charge only in the old file) reads
old_metadata[...][charge] and raises KeyError; the Bool result signals
that.  Charges present only in the OLD document are never visited. -/
def _combine_charges (dname : String) (oldCharges : List (ℤ × MetaCharge)) :
    List (ℤ × MetaCharge) → List (ℤ × MetaCharge) → List Warn →
    (List (ℤ × MetaCharge) × List Warn × Bool)
  | [], acc, ws => (acc, ws, false)
  | (q, newC) :: rest, acc, ws =>
    match alLookup oldCharges q with
    | some oldC =>
      if newC = oldC then
        let newC' := { newC with distortion_parameters :=
          { bond_distortions := newC.distortion_parameters.bond_distortions
              ++ oldC.distortion_parameters.bond_distortions,
            rattle_stdev := none } }
        _combine_charges dname oldCharges rest (alInsert acc q newC') ws
      else
        _combine_charges dname oldCharges rest acc
          (ws ++ [Warn.metaConflict dname q])
    | none => (acc, ws, true)

/-- The outer combination loop of _write_distortion_metadata over the old
document's defects (input.py lines 104-147): a defect absent from the new
document is copied over; a defect present in both goes through
_combine_charges.  A KeyError from the inner loop aborts the whole
combination, keeping the mutations applied so far (Python leaves the
partially-updated new document in place when the except handler fires). -/
def _combine_defects :
    List (String × MetaDefect) → List (String × MetaDefect) → List Warn →
    (List (String × MetaDefect) × List Warn × Bool)
  | [], newDefects, ws => (newDefects, ws, false)
  | (dname, oldE) :: rest, newDefects, ws =>
    match alLookup newDefects dname with
    | some newE =>
      let r := _combine_charges dname oldE.charges newE.charges newE.charges ws
      let newDefects' := alInsert newDefects dname { newE with charges := r.1 }
      if r.2.2 then (newDefects', r.2.1, true)
      else _combine_defects rest newDefects' r.2.1
    | none => _combine_defects rest (alInsert newDefects dname oldE) ws

/-- The document-combination step of _write_distortion_metadata (input.py
lines 104-154): given the in-memory new metadata and the old document
read back from disk, it returns the document that gets written to the
metadata file, together with the warnings emitted.  The except KeyError
handler (lines 148-152) is the Bool-signalled abort: the partially
combined new document is written with a problem warning. -/
def _write_distortion_metadata_combined (new_metadata old_metadata : Metadata) :
    Metadata × List Warn :=
  let r := _combine_defects old_metadata.defects new_metadata.defects []
  ({ new_metadata with defects := r.1 },
   if r.2.2 then r.2.1 ++ [Warn.metaProblem] else r.2.1)

/-- The charge-0 entry shared by both metadata documents of the C2
scenario. -/
def chargeEntry0 : MetaCharge where
  num_nearest_neighbours := 2
  distorted_atoms := some [(33, "Te"), (42, "Te")]
  distortion_parameters :=
    { bond_distortions := [mkRat (-1) 2, mkRat 1 2]
      rattle_stdev := some (mkRat 1 4) }

/-- The charge -2 entry present only in the OLD metadata document of the
C2 scenario. -/
def chargeEntryM2 : MetaCharge where
  num_nearest_neighbours := 0
  distorted_atoms := none
  distortion_parameters :=
    { bond_distortions := [mkRat (-1) 2, mkRat 1 2]
      rattle_stdev := some (mkRat 1 4) }

/-- The old (on-disk) metadata document of the C2 scenario: one defect
with charge states 0 and -2. -/
def oldDocC2 : Metadata :=
  ⟨⟨none, [mkRat (-1) 2, mkRat 1 2], mkRat 1 4⟩,
   [("vac_1_Cd", ⟨[0, 0, 0], none, [(0, chargeEntry0), (-2, chargeEntryM2)]⟩)]⟩

/-- The new (in-memory) metadata document of the C2 scenario: the same
defect, but only charge state 0. -/
def newDocC2 : Metadata :=
  ⟨⟨none, [mkRat (-1) 2, mkRat 1 2], mkRat 1 4⟩,
   [("vac_1_Cd", ⟨[0, 0, 0], none, [(0, chargeEntry0)]⟩)]⟩

/-- C2: the merge silently drops a charge-state entry present in only one
of the two documents.  The old document records charge -2 for vac_1_Cd;
the new one does not; after combining, the written document has no charge
-2 entry for that defect and no warning was emitted.  The cause is that
the combination loop iterates the NEW document's charges (input.py line
108), so the branch the source comments as "if charge state only in old
metadata, add it to file" (line 140) can never add an old-only charge. -/
theorem C2_merge_drops_old_charge :
    (match alLookup oldDocC2.defects "vac_1_Cd" with
     | some e => alLookup e.charges (-2)
     | none => none) = some chargeEntryM2
    ∧ (match alLookup
          (_write_distortion_metadata_combined newDocC2 oldDocC2).1.defects
          "vac_1_Cd" with
       | some e => alLookup e.charges (-2)
       | none => none) = none
    ∧ (_write_distortion_metadata_combined newDocC2 oldDocC2).2 = [] := by
  refine ⟨by decide, by decide, by decide⟩

/-- np.sort of a flattened array: ascending sort. -/
def sortQ (l : List ℚ) : List ℚ := List.insertionSort (· ≤ ·) l

theorem sortQ_sorted (l : List ℚ) : (sortQ l).Sorted (· ≤ ·) :=
  List.sorted_insertionSort _ l

theorem sortQ_perm (l : List ℚ) : (sortQ l).Perm l :=
  List.perm_insertionSort _ l

/-- Order-statistic characterisation of a sorted list: position k holds
the value m when fewer than k+1 entries are < m and more than k entries
are ≤ m. -/
theorem sorted_get_eq_of_countP (S : List ℚ) (hS : S.Sorted (· ≤ ·)) (k : ℕ)
    (hk : k < S.length) (m : ℚ)
    (h1 : S.countP (fun x => decide (x < m)) ≤ k)
    (h2 : k < S.countP (fun x => decide (x ≤ m))) :
    S.get ⟨k, hk⟩ = m := by
  induction S generalizing k with
  | nil => simp at hk
  | cons a t ih =>
    have hat : ∀ y ∈ t, a ≤ y := (List.sorted_cons.mp hS).1
    have hts : t.Sorted (· ≤ ·) := (List.sorted_cons.mp hS).2
    rcases k with _ | k
    · rw [List.countP_cons] at h1 h2
      have hma : ¬(a < m) := by
        intro hlt
        have hito : (if decide (a < m) = true then 1 else 0) = 1 := by simp [hlt]
        rw [hito] at h1
        omega
      have ham : a ≤ m := by
        by_cases hle : a ≤ m
        · exact hle
        · exfalso
          have hito : (if decide (a ≤ m) = true then 1 else 0) = 0 := by simp [hle]
          rw [hito] at h2
          have hpos : 0 < t.countP (fun x => decide (x ≤ m)) := by omega
          obtain ⟨x, hx, hxm⟩ := List.countP_pos_iff.mp hpos
          exact hle (le_trans (hat x hx) (of_decide_eq_true hxm))
      exact le_antisymm ham (not_lt.mp hma)
    · rw [List.countP_cons] at h1 h2
      show t.get ⟨k, by simpa using hk⟩ = m
      by_cases ham : a < m
      · refine ih hts k _ ?_ ?_
        · have hito : (if decide (a < m) = true then 1 else 0) = 1 := by simp [ham]
          rw [hito] at h1
          omega
        · have : (if (decide (a ≤ m)) = true then 1 else 0) ≤ 1 := by
            split <;> omega
          omega
      · refine ih hts k _ ?_ ?_
        · have : t.countP (fun x => decide (x < m)) = 0 := by
            rw [List.countP_eq_zero]
            intro x hx
            simp only [decide_eq_true_eq]
            exact not_lt.mpr (le_trans (not_lt.mp ham) (hat x hx))
          omega
        · have : (if (decide (a ≤ m)) = true then 1 else 0) ≤ 1 := by
            split <;> omega
          omega

/-- In a duplicate-free list, at most one element satisfies
(· = i). -/
theorem countP_eq_le_one (l : List ℕ) (hnd : l.Nodup) (i : ℕ) :
    l.countP (fun j => decide (j = i)) ≤ 1 := by
  induction l with
  | nil => simp
  | cons x t ih =>
    have hx : x ∉ t := (List.nodup_cons.mp hnd).1
    have ht : t.Nodup := (List.nodup_cons.mp hnd).2
    rw [List.countP_cons]
    by_cases hxi : x = i
    · subst hxi
      have : t.countP (fun j => decide (j = x)) = 0 := by
        rw [List.countP_eq_zero]
        intro j hj
        simp only [decide_eq_true_eq]
        intro hji; exact hx (hji ▸ hj)
      simp [this]
    · have := ih ht
      simp [hxi]
      omega

/-- In a duplicate-free list containing two distinct elements that
satisfy p, at least two entries satisfy p. -/
theorem two_le_countP_of_mem (l : List ℕ) (hnd : l.Nodup) (a b : ℕ)
    (hab : a ≠ b) (ha : a ∈ l) (hb : b ∈ l) (p : ℕ → Bool)
    (hpa : p a = true) (hpb : p b = true) : 2 ≤ l.countP p := by
  induction l with
  | nil => simp at ha
  | cons x t ih =>
    have ht : t.Nodup := (List.nodup_cons.mp hnd).2
    rw [List.countP_cons]
    by_cases hax : a = x
    · subst hax
      have hbt : b ∈ t := by
        rcases List.mem_cons.mp hb with h | h
        · exact absurd h.symm hab
        · exact h
      have hpos : 0 < t.countP p := List.countP_pos_iff.mpr ⟨b, hbt, hpb⟩
      rw [hpa]
      simp only [if_pos]
      omega
    · by_cases hbx : b = x
      · subst hbx
        have hat2 : a ∈ t := by
          rcases List.mem_cons.mp ha with h | h
          · exact absurd h hax
          · exact h
        have hpos : 0 < t.countP p := List.countP_pos_iff.mpr ⟨a, hat2, hpa⟩
        rw [hpb]
        simp only [if_pos]
        omega
      · have hat2 : a ∈ t := by
          rcases List.mem_cons.mp ha with h | h
          · exact absurd h hax
          · exact h
        have hbt : b ∈ t := by
          rcases List.mem_cons.mp hb with h | h
          · exact absurd h hbx
          · exact h
        have := ih ht hat2 hbt
        omega

theorem length_le_sum_map (l : List ℕ) (g : ℕ → ℕ) (h : ∀ x ∈ l, 1 ≤ g x) :
    l.length ≤ (l.map g).sum := by
  induction l with
  | nil => simp
  | cons x t ih =>
    have := ih (fun y hy => h y (List.mem_cons_of_mem _ hy))
    have hx := h x (List.mem_cons_self _ t)
    simp only [List.map_cons, List.sum_cons, List.length_cons]
    omega

theorem sum_map_le_length (l : List ℕ) (g : ℕ → ℕ) (h : ∀ x ∈ l, g x ≤ 1) :
    (l.map g).sum ≤ l.length := by
  induction l with
  | nil => simp
  | cons x t ih =>
    have := ih (fun y hy => h y (List.mem_cons_of_mem _ hy))
    have hx := h x (List.mem_cons_self _ t)
    simp only [List.map_cons, List.sum_cons, List.length_cons]
    omega

theorem succ_length_le_sum_map (l : List ℕ) (g : ℕ → ℕ) (a : ℕ) (ha : a ∈ l)
    (h1 : ∀ x ∈ l, 1 ≤ g x) (h2 : 2 ≤ g a) :
    l.length + 1 ≤ (l.map g).sum := by
  induction l with
  | nil => simp at ha
  | cons x t ih =>
    simp only [List.map_cons, List.sum_cons, List.length_cons]
    rcases List.mem_cons.mp ha with rfl | hat
    · have := length_le_sum_map t g (fun y hy => h1 y (List.mem_cons_of_mem _ hy))
      omega
    · have hx := h1 x (List.mem_cons_self _ t)
      have := ih hat (fun y hy => h1 y (List.mem_cons_of_mem _ hy))
      omega

/-- An N-by-N matrix given as an index function, in the nested-list form
whose flatten is numpy's row-major flattened array. -/
def matrixFlat (N : ℕ) (f : ℕ → ℕ → ℚ) : List (List ℚ) :=
  (List.range N).map (fun i => (List.range N).map (f i))

/-- The entry at position N of the sorted flattened N-by-N distance
matrix is the least off-diagonal entry: the diagonal contributes exactly
the N smallest (zero) entries ahead of it.  This is the fact behind
"sorted_distances[len(structure)] is the smallest pairwise distance". -/
theorem sortQ_flat_get_of_min (N : ℕ) (f : ℕ → ℕ → ℚ) (m : ℚ)
    (hdiag : ∀ i < N, f i i = 0)
    (hm0 : 0 ≤ m)
    (hoff : ∀ i < N, ∀ j < N, i ≠ j → m ≤ f i j)
    (hach : ∃ i < N, ∃ j < N, i ≠ j ∧ f i j = m) :
    (sortQ (matrixFlat N f).flatten).get? N = some m := by
  obtain ⟨i0, hi0, j0, hj0, hij0, hfij0⟩ := hach
  have hN2 : 2 ≤ N := by
    rcases Nat.lt_or_ge i0 j0 with h | h
    · omega
    · rcases Nat.lt_or_ge j0 i0 with h' | h'
      · omega
      · omega
  set F := (matrixFlat N f).flatten with hF
  have hlenF : F.length = N * N := by
    rw [hF, List.length_flatten, matrixFlat, List.map_map]
    have : ((List.range N).map (List.length ∘ fun i => (List.range N).map (f i)))
        = (List.range N).map (fun _ => N) := by
      apply List.map_congr_left
      intro i _
      simp [Function.comp]
    rw [this, List.map_const', List.sum_replicate, List.length_range, smul_eq_mul]
  have hcount : ∀ p : ℚ → Bool,
      F.countP p = ((List.range N).map
        (fun i => (List.range N).countP (fun j => p (f i j)))).sum := by
    intro p
    rw [hF, matrixFlat, List.countP_flatten, List.map_map]
    congr 1
    apply List.map_congr_left
    intro i _
    show List.countP p ((List.range N).map (f i)) = _
    rw [List.countP_map]
    rfl
  have hlt : F.countP (fun x => decide (x < m)) ≤ N := by
    rw [hcount]
    calc ((List.range N).map
          (fun i => (List.range N).countP (fun j => decide (f i j < m)))).sum
        ≤ (List.range N).length := by
          apply sum_map_le_length
          intro i hi
          have hiN : i < N := List.mem_range.mp hi
          calc (List.range N).countP (fun j => decide (f i j < m))
              ≤ (List.range N).countP (fun j => decide (j = i)) := by
                apply List.countP_mono_left
                intro j hj hlt
                have hjN : j < N := List.mem_range.mp hj
                simp only [decide_eq_true_eq] at hlt ⊢
                by_contra hji
                exact absurd (hoff i hiN j hjN (fun h => hji h.symm)) (not_le.mpr hlt)
            _ ≤ 1 := countP_eq_le_one _ (List.nodup_range N) i
      _ = N := List.length_range N
  have hle : N < F.countP (fun x => decide (x ≤ m)) := by
    rw [hcount]
    have : (List.range N).length + 1 ≤ ((List.range N).map
        (fun i => (List.range N).countP (fun j => decide (f i j ≤ m)))).sum := by
      apply succ_length_le_sum_map _ _ i0 (List.mem_range.mpr hi0)
      · intro i hi
        have hiN : i < N := List.mem_range.mp hi
        exact List.countP_pos_iff.mpr
          ⟨i, List.mem_range.mpr hiN, by simp [hdiag i hiN, hm0]⟩
      · apply two_le_countP_of_mem _ (List.nodup_range N) i0 j0 hij0
          (List.mem_range.mpr hi0) (List.mem_range.mpr hj0)
        · simp [hdiag i0 hi0, hm0]
        · simp [hfij0]
    rw [List.length_range] at this
    omega
  have hlenS : (sortQ F).length = N * N := by
    rw [(sortQ_perm F).length_eq, hlenF]
  have hkS : N < (sortQ F).length := by
    rw [hlenS]
    nlinarith [hN2]
  rw [List.get?_eq_get hkS]
  congr 1
  apply sorted_get_eq_of_countP (sortQ F) (sortQ_sorted F) N hkS m
  · rw [(sortQ_perm F).countP_eq]
    exact hlt
  · rw [(sortQ_perm F).countP_eq]
    exact hle

/-- The default d_min computation of apply_rattle_bond_distortions
(input.py lines 379-392, duplicated verbatim in apply_snb_distortions
lines 532-546): sort the flattened distance matrix of the unperturbed
defect supercell, read the entry at index len(structure) + 20, and scale
by 0.8; if the result is below 1 Angstrom, warn (the message names
(1/0.8) times the value, i.e. the detected bond length) and fall back to
the hard-coded 2.25 Angstrom.  Indexing past the end of the flattened
matrix is numpy's IndexError. -/
def _auto_d_min (s : Structure) : Except PyErr (ℚ × List Warn) :=
  match (sortQ s.distMat.flatten).get? (s.numSites + 20) with
  | none => .error .indexError
  | some dval =>
    let d_min := qmul (mkRat 4 5) dval
    if d_min < 1 then
      .ok (mkRat 9 4, [Warn.autoDminTooSmall (qmul (mkRat 5 4) d_min)])
    else
      .ok (d_min, [])

/-- The default d_min as the spec sentence of claim C7 literally reads:
0.8 times the pairwise distance found after skipping the first
2×(number of sites) smallest nonzero entries of the sorted flattened
distance matrix.  Declared only to compare the claim's rule against the
code's _auto_d_min. -/
def d_min_spec (s : Structure) : Option ℚ :=
  ((((sortQ s.distMat.flatten).filter (fun x => !(x == 0))).drop
      (2 * s.numSites)).head?).map (qmul (mkRat 4 5))

/-- The 6-site structure whose distance matrix separates the code's
d_min index (numSites + 20 = 26) from the claim's skip count
(2×numSites = 12 nonzero entries): the fifteen pair distances are
2.0, 2.1, ..., 3.4 Angstrom, each appearing twice in the symmetric
matrix. -/
def sC7 : Structure :=
  ⟨["Cd", "Cd", "Cd", "Te", "Te", "Te"],
   [[0, 2, mkRat 21 10, mkRat 22 10, mkRat 23 10, mkRat 24 10],
    [2, 0, mkRat 25 10, mkRat 26 10, mkRat 27 10, mkRat 28 10],
    [mkRat 21 10, mkRat 25 10, 0, mkRat 29 10, 3, mkRat 31 10],
    [mkRat 22 10, mkRat 26 10, mkRat 29 10, 0, mkRat 32 10, mkRat 33 10],
    [mkRat 23 10, mkRat 27 10, 3, mkRat 32 10, 0, mkRat 34 10],
    [mkRat 24 10, mkRat 28 10, mkRat 31 10, mkRat 33 10, mkRat 34 10, 0]]⟩

/-- C7: counterexample.  On the 6-site supercell sC7, the code reads the
sorted flattened distance matrix at index numSites + 20 = 26 (skipping
the 6 diagonal zeros and the 20 smallest nonzero entries), landing on
3.0 and giving d_min = 2.4; the claim's rule — skip the first
2×numSites = 12 smallest nonzero entries — lands on 2.6 and would give
2.08.  The two disagree, so the computed d_min is not what the claim
states. -/
theorem C7_counterexample :
    _auto_d_min sC7 = .ok (mkRat 12 5, [])
    ∧ d_min_spec sC7 = some (mkRat 52 25)
    ∧ (mkRat 12 5 : ℚ) ≠ mkRat 52 25 := by
  refine ⟨by decide, by decide, by decide⟩

/-- C7 (amended): when d_min is not supplied, it is computed as 0.8 × the
entry at index (number of sites) + 20 of the sorted flattened distance
matrix of the unperturbed supercell — i.e. after skipping the numSites
diagonal zeros and then the 20 smallest nonzero entries (ten bond
lengths, double counted), not 2×(number of sites) nonzero entries — and
whenever this heuristic yields a value below 1 Angstrom, the value is
discarded with a warning naming the detected bond length and replaced by
the hard-coded fallback of 2.25 Angstrom. -/
theorem C7_auto_d_min (s : Structure) (dval : ℚ)
    (h : (sortQ s.distMat.flatten).get? (s.numSites + 20) = some dval) :
    _auto_d_min s =
      (if (4/5 : ℚ) * dval < 1 then
        .ok ((9/4 : ℚ), [Warn.autoDminTooSmall ((5/4 : ℚ) * ((4/5 : ℚ) * dval))])
      else .ok ((4/5 : ℚ) * dval, [])) := by
  have h45 : mkRat 4 5 = (4/5 : ℚ) := by norm_num [Rat.mkRat_eq_div]
  have h94 : mkRat 9 4 = (9/4 : ℚ) := by norm_num [Rat.mkRat_eq_div]
  have h54 : mkRat 5 4 = (5/4 : ℚ) := by norm_num [Rat.mkRat_eq_div]
  unfold _auto_d_min
  rw [h]
  simp only [qmul_eq, h45, h94, h54]

/-- C7 witness: the amended rule applied to the concrete supercell sC7,
whose heuristic value 2.4 is above the sanity floor. -/
theorem C7_auto_d_min_witness :
    _auto_d_min sC7 = .ok ((4/5 : ℚ) * 3, []) := by
  rw [C7_auto_d_min sC7 3 (by decide)]
  norm_num

/-- Char-list prefix test, the base of the substring check below. -/
def charsBeginWith : List Char → List Char → Bool
  | [], _ => true
  | _ :: _, [] => false
  | p :: ps, c :: cs => p == c && charsBeginWith ps cs

/-- Char-list substring test. -/
def charsContain (hay pat : List Char) : Bool :=
  match hay with
  | [] => pat.isEmpty
  | _ :: t => charsBeginWith pat hay || charsContain t pat

/-- Python's substring membership test, used by the except handler of
apply_rattle_bond_distortions ("attempts" in str(e), input.py line
421). -/
def strContains (s pat : String) : Bool := charsContain s.data pat.data

/-- The dict returned by shakenbreak.distortions.distort as read by
input.py: the distorted structure, the undistorted structure, the
distorted (VASP-indexed) atom list, and — only when a site index was
passed — the defect site index. -/
structure DistortOut where
  distorted_structure : Structure
  undistorted_structure : Structure
  distorted_atoms : List (ℕ × String)
  defect_site_index : Option ℕ := none
deriving DecidableEq

/-- The arguments input.py passes to distort. -/
structure DistortArgs where
  struct : Structure
  num_nearest_neighbours : ℤ
  distortion_factor : ℚ
  site_index : Option ℕ := none
  frac_coords : Option (List ℚ) := none
  distorted_element : Option String := none
deriving DecidableEq

/-- The arguments input.py passes to rattle. -/
structure RattleArgs where
  struct : Structure
  stdev : ℚ
  d_min : ℚ
  active_atoms : Option (List ℕ) := none
deriving DecidableEq

/-- shakenbreak.distortions.distort is not among the sources under
verification; the orchestration code is verified for an arbitrary
collaborator of this type. -/
def DistortFn : Type := DistortArgs → Except PyErr DistortOut

/-- shakenbreak.distortions.rattle (a wrapper over hiphive's mc_rattle)
is not among the sources under verification; its failures carry the
Python exception text, which input.py checks for the substring
"attempts". -/
def RattleFn : Type := RattleArgs → Except String Structure

/-- The distort invocation of apply_rattle_bond_distortions (input.py
lines 354-376): fractional coordinates for vacancies (no atom site in
the structure), else a site index equal to len(structure) — the defect
atom is taken to come last. -/
def _distort_call (distortFn : DistortFn) (defect_dict : DefectDict)
    (num_nearest_neighbours : ℤ) (distortion_factor : ℚ)
    (distorted_element : Option String) : Except PyErr DistortOut :=
  if defect_dict.defect_type = "vacancy" then
    distortFn { struct := defect_dict.supercell.struct,
                num_nearest_neighbours := num_nearest_neighbours,
                distortion_factor := distortion_factor,
                frac_coords := some defect_dict.bulk_supercell_site.frac_coords,
                distorted_element := distorted_element }
  else
    distortFn { struct := defect_dict.supercell.struct,
                num_nearest_neighbours := num_nearest_neighbours,
                distortion_factor := distortion_factor,
                site_index := some defect_dict.supercell.struct.numSites,
                distorted_element := distorted_element }

/-- The default active_atoms computation (input.py lines 394-410): take
the VASP-indexed distorted atoms plus the defect site index when present,
shift to python indexing, and remove them from range(len(structure)). -/
def _default_active_atoms (n : ℕ) (bond_distorted_defect : DistortOut) :
    List ℕ :=
  let distorted_atom_indices :=
    (bond_distorted_defect.distorted_atoms.map Prod.fst)
      ++ (match bond_distorted_defect.defect_site_index with
          | some i => [i]
          | none => [])
  let shifted := distorted_atom_indices.map (fun i => i - 1)
  (List.range n).filter (fun i => !(shifted.contains i))

/-- apply_rattle_bond_distortions (input.py lines 304-440), parametrised
by the distort and rattle collaborators: distort, derive d_min when not
supplied (Python's `if not d_min` also treats 0.0 as unsupplied), derive
the default active atoms when not supplied, then rattle; if rattling
fails with an attempt-budget error, retry once with d_min relaxed to the
sorted flattened distance matrix of the distorted structure at index
len(structure) plus 2×stdev, warning with the original and relaxed
values; other errors, and a failure of the retry itself, propagate. -/
def apply_rattle_bond_distortions (distortFn : DistortFn)
    (rattleFn : RattleFn) (defect_dict : DefectDict)
    (num_nearest_neighbours : ℤ) (distortion_factor : ℚ)
    (stdev : ℚ := mkRat 1 4) (d_min? : Option ℚ := none)
    (active_atoms? : Option (List ℕ) := none)
    (distorted_element : Option String := none) :
    Except PyErr (DistortOut × List Warn) :=
  match _distort_call distortFn defect_dict num_nearest_neighbours
      distortion_factor distorted_element with
  | .error e => .error e
  | .ok bond_distorted_defect =>
    let supercell := defect_dict.supercell.struct
    match (match d_min? with
           | some v => if v = 0 then _auto_d_min supercell
                       else .ok (v, ([] : List Warn))
           | none => _auto_d_min supercell) with
    | .error e => .error e
    | .ok (d_min, warns) =>
      let active_atoms := (match active_atoms? with
        | some l => l
        | none => _default_active_atoms supercell.numSites bond_distorted_defect)
      match rattleFn { struct := bond_distorted_defect.distorted_structure,
                       stdev := stdev, d_min := d_min,
                       active_atoms := some active_atoms } with
      | .ok s => .ok ({ bond_distorted_defect with distorted_structure := s },
          warns)
      | .error e =>
        if strContains e "attempts" then
          match (sortQ bond_distorted_defect.distorted_structure.distMat.flatten).get?
              bond_distorted_defect.distorted_structure.numSites with
          | none => .error .indexError
          | some sd =>
            let reduced_d_min := qadd sd (qmul 2 stdev)
            match rattleFn { struct := bond_distorted_defect.distorted_structure,
                             stdev := stdev, d_min := reduced_d_min,
                             active_atoms := some active_atoms } with
            | .ok s => .ok ({ bond_distorted_defect with distorted_structure := s },
                warns ++ [Warn.rattleRetry d_min reduced_d_min])
            | .error e2 => .error (.exn e2)
        else
          .error (.exn e)

/-- C6: failure and recovery of the rattle step.  With d_min supplied
(nonzero) and the distort step succeeding, the try/except around rattle
(input.py lines 412-438) behaves as claimed: (1) if the first rattle
fails with an attempt-budget error, the operation retries exactly once
with d_min relaxed to the smallest post-distortion pairwise distance
plus 2×stdev and, on a successful retry, emits a warning naming the
original and relaxed values, while a failing retry propagates its error
to the caller; (2) a failure that is not an attempt-budget failure
propagates immediately, with no retry; (3) a first-time success rattles
exactly once with the given d_min and warns nothing. -/
theorem C6_rattle_retry (distortFn : DistortFn) (rattleFn : RattleFn)
    (defect_dict : DefectDict) (k : ℤ) (fac stdev d_min : ℚ)
    (acts : List ℕ) (de : Option String) (dout : DistortOut)
    (m : ℚ) (f : ℕ → ℕ → ℚ)
    (hdmin : d_min ≠ 0)
    (hdist : _distort_call distortFn defect_dict k fac de = .ok dout)
    (hmat : dout.distorted_structure.distMat
        = matrixFlat dout.distorted_structure.numSites f)
    (hdiag : ∀ i < dout.distorted_structure.numSites, f i i = 0)
    (hm0 : 0 ≤ m)
    (hoff : ∀ i < dout.distorted_structure.numSites,
        ∀ j < dout.distorted_structure.numSites, i ≠ j → m ≤ f i j)
    (hach : ∃ i < dout.distorted_structure.numSites,
        ∃ j < dout.distorted_structure.numSites, i ≠ j ∧ f i j = m) :
    (∀ e, rattleFn { struct := dout.distorted_structure
                     stdev := stdev
                     d_min := d_min
                     active_atoms := some acts } = .error e →
      strContains e "attempts" = true →
      apply_rattle_bond_distortions distortFn rattleFn defect_dict k fac
          stdev (some d_min) (some acts) de
        = (match rattleFn { struct := dout.distorted_structure
                            stdev := stdev
                            d_min := m + 2 * stdev
                            active_atoms := some acts } with
           | .ok s => .ok ({ dout with distorted_structure := s },
               [Warn.rattleRetry d_min (m + 2 * stdev)])
           | .error e2 => .error (.exn e2)))
    ∧ (∀ e, rattleFn { struct := dout.distorted_structure
                       stdev := stdev
                       d_min := d_min
                       active_atoms := some acts } = .error e →
      strContains e "attempts" = false →
      apply_rattle_bond_distortions distortFn rattleFn defect_dict k fac
          stdev (some d_min) (some acts) de = .error (.exn e))
    ∧ (∀ s, rattleFn { struct := dout.distorted_structure
                       stdev := stdev
                       d_min := d_min
                       active_atoms := some acts } = .ok s →
      apply_rattle_bond_distortions distortFn rattleFn defect_dict k fac
          stdev (some d_min) (some acts) de
        = .ok ({ dout with distorted_structure := s }, [])) := by
  have hred : qadd m (qmul 2 stdev) = m + 2 * stdev := by
    rw [qadd_eq, qmul_eq]
  have hget : (sortQ dout.distorted_structure.distMat.flatten).get?
      dout.distorted_structure.numSites = some m := by
    rw [hmat]
    exact sortQ_flat_get_of_min _ f m hdiag hm0 hoff hach
  refine ⟨?_, ?_, ?_⟩
  · intro e he hatt
    unfold apply_rattle_bond_distortions
    rw [hdist]
    dsimp only
    rw [if_neg hdmin]
    dsimp only
    rw [he]
    dsimp only
    rw [hatt]
    rw [if_pos rfl]
    rw [hget]
    dsimp only
    rw [hred]
    rfl
  · intro e he hatt
    unfold apply_rattle_bond_distortions
    rw [hdist]
    dsimp only
    rw [if_neg hdmin]
    dsimp only
    rw [he]
    dsimp only
    rw [hatt]
    simp
  · intro s hs
    unfold apply_rattle_bond_distortions
    rw [hdist]
    dsimp only
    rw [if_neg hdmin]
    dsimp only
    rw [hs]

/-- The two-site post-distortion structure of the C6 witness, with pair
distance 3 Angstrom. -/
def sW6 : Structure := ⟨["Cd", "Te"], [[0, 3], [3, 0]]⟩

/-- The distort output of the C6 witness. -/
def doutW : DistortOut := ⟨sW6, sW6, [(2, "Te")], some 2⟩

/-- A distort collaborator that returns doutW. -/
def distortFnW : DistortFn := fun _ => .ok doutW

/-- A rattle collaborator that exhausts its attempt budget at d_min = 7
and succeeds (returning the input structure) at any other d_min. -/
def rattleFnW : RattleFn := fun args =>
  if args.d_min = 7 then .error "Maximum number of attempts (5000) exceeded"
  else .ok args.struct

/-- C6 witness: the retry branch instantiated concretely — the first
rattle at d_min = 7 fails on attempts, the retry runs at the smallest
pair distance 3 plus 2×stdev = 5 and succeeds, and the warning names 7
and 5. -/
theorem C6_rattle_retry_witness :
    apply_rattle_bond_distortions distortFnW rattleFnW vacCdDefect 2
        (mkRat 1 2) 1 (some 7) (some [0]) none
      = .ok (doutW, [Warn.rattleRetry 7 5]) := by
  have h := (C6_rattle_retry distortFnW rattleFnW vacCdDefect 2 (mkRat 1 2) 1 7
      [0] none doutW 3 (fun i j => if i = j then 0 else 3)
      (by norm_num) (by decide) (by decide) (by decide) (by norm_num)
      (by decide) (by decide)).1
      "Maximum number of attempts (5000) exceeded" (by decide) (by decide)
  rw [h]
  have h5 : (3 : ℚ) + 2 * 1 = 5 := by norm_num
  rw [h5]
  decide

/-- round(x, 3) as applied to distortion fractions (input.py lines
492-494); the Python source adds `+ 0` to turn -0.0 into 0.0, which is a
no-op on exact rationals. -/
def pyRound3 (q : ℚ) : ℚ := Rat.divInt (qround (qmul q 1000)) 1000

/-- Modelled from the spec: the distortion-label formatter
_get_distortion_filename lives in shakenbreak.analysis, which is not
among the sources under verification.  Spec 4.4 and the data model give
the label the form "Bond_Distortion_<signed-percentage>%" with one
decimal digit, and spec 8 requires that exact zero renders as "0.0%",
never "-0.0%". -/
def _get_distortion_filename (distortion : ℚ) : String :=
  let t := qround (qmul distortion 1000)
  let pct := (if t < 0 then "-" else "")
    ++ toString (t.natAbs / 10) ++ "." ++ toString (t.natAbs % 10)
  "Bond_Distortion_" ++ pct ++ "%"

/-- The distortion_parameters sub-dict built by apply_snb_distortions
(input.py lines 511-521 and 551-559). -/
structure SnbParams where
  unique_site : List ℚ
  num_distorted_neighbours : ℤ
  distorted_atoms : Option (List (ℕ × String))
  defect_site_index : Option ℕ := none
deriving DecidableEq

/-- The output dict of apply_snb_distortions (input.py lines 484-488):
the "Unperturbed" entry holding the whole input defect dict, the
"distortions" dict of labelled structures, and "distortion_parameters"
(none models the initial empty dict). -/
structure SnbOut where
  Unperturbed : DefectDict
  distortions : List (String × Structure)
  distortion_parameters : Option SnbParams
deriving DecidableEq

/-- The bond-distortion loop of apply_snb_distortions (input.py lines
490-521): one apply_rattle_bond_distortions call per configured
fraction, the fraction first rounded to 3 decimals (with -0.0
normalised), the resulting structure stored under its distortion label,
and distortion_parameters overwritten each iteration; the
defect_site_index is added only when truthy (present and nonzero). -/
def _snb_loop (distortFn : DistortFn) (rattleFn : RattleFn)
    (defect_dict : DefectDict) (num_nearest_neighbours : ℤ) (stdev : ℚ)
    (d_min? : Option ℚ) (distorted_element : Option String) :
    List ℚ → SnbOut → List Warn → Except PyErr (SnbOut × List Warn)
  | [], acc, ws => .ok (acc, ws)
  | distortion0 :: rest, acc, ws =>
    let distortion := pyRound3 distortion0
    let distortion_factor := qadd 1 distortion
    match apply_rattle_bond_distortions distortFn rattleFn defect_dict
        num_nearest_neighbours distortion_factor stdev d_min? none
        distorted_element with
    | .error e => .error e
    | .ok (bond_distorted_defect, ws') =>
      let acc' : SnbOut :=
        { acc with
          distortions := alInsert acc.distortions
            (_get_distortion_filename distortion)
            bond_distorted_defect.distorted_structure
          distortion_parameters := some
            { unique_site := defect_dict.bulk_supercell_site.frac_coords
              num_distorted_neighbours := num_nearest_neighbours
              distorted_atoms := some bond_distorted_defect.distorted_atoms
              defect_site_index :=
                (match bond_distorted_defect.defect_site_index with
                 | some i => if i ≠ 0 then some i else none
                 | none => none) } }
      _snb_loop distortFn rattleFn defect_dict num_nearest_neighbours stdev
        d_min? distorted_element rest acc' (ws ++ ws')

/-- The neighbour-count-zero branch of apply_snb_distortions (input.py
lines 523-559): compute the defect site index (None for a vacancy, else
len(structure)), derive d_min exactly as apply_rattle_bond_distortions
does, and rattle the full structure — without any try/except, so a
rattle failure propagates — storing the single "Rattled" entry; the site
index is recorded only when truthy. -/
def _snb_rattled (rattleFn : RattleFn) (defect_dict : DefectDict)
    (d_min? : Option ℚ) (stdev : ℚ) : Except PyErr (SnbOut × List Warn) :=
  let defect_site_index : Option ℕ :=
    if defect_dict.defect_type = "vacancy" then none
    else some defect_dict.supercell.struct.numSites
  match (match d_min? with
         | some v => if v = 0 then _auto_d_min defect_dict.supercell.struct
                     else .ok (v, ([] : List Warn))
         | none => _auto_d_min defect_dict.supercell.struct) with
  | .error e => .error e
  | .ok (d_min, warns) =>
    match rattleFn { struct := defect_dict.supercell.struct
                     stdev := stdev
                     d_min := d_min } with
    | .error e => .error (.exn e)
    | .ok perturbed_structure =>
      .ok (⟨defect_dict, [("Rattled", perturbed_structure)],
            some { unique_site := defect_dict.bulk_supercell_site.frac_coords
                   num_distorted_neighbours := 0
                   distorted_atoms := none
                   defect_site_index :=
                     (match defect_site_index with
                      | some i => if i ≠ 0 then some i else none
                      | none => none) }⟩, warns)

theorem _snb_rattled_shape (rattleFn : RattleFn) (defect_dict : DefectDict)
    (d_min? : Option ℚ) (stdev : ℚ) (out : SnbOut) (ws : List Warn)
    (h : _snb_rattled rattleFn defect_dict d_min? stdev = .ok (out, ws)) :
    out.Unperturbed = defect_dict ∧ ∃ s, out.distortions = [("Rattled", s)] := by
  unfold _snb_rattled at h
  dsimp only at h
  split at h
  · exact absurd h (by simp)
  · split at h
    · exact absurd h (by simp)
    · injection h with h1
      injection h1 with h2 h3
      subst h2
      exact ⟨rfl, ⟨_, rfl⟩⟩

/-- apply_snb_distortions (input.py lines 443-560): create the output
dict with its "Unperturbed" entry holding the input defect dict, then
either run the bond-distortion loop over the configured fractions
(nonzero neighbour count) or take the single-"Rattled" branch (neighbour
count zero). -/
def apply_snb_distortions (distortFn : DistortFn) (rattleFn : RattleFn)
    (defect_dict : DefectDict) (num_nearest_neighbours : ℤ)
    (bond_distortions : List ℚ) (stdev : ℚ := mkRat 1 4)
    (d_min? : Option ℚ := none) (distorted_element : Option String := none) :
    Except PyErr (SnbOut × List Warn) :=
  if num_nearest_neighbours ≠ 0 then
    _snb_loop distortFn rattleFn defect_dict num_nearest_neighbours stdev
      d_min? distorted_element bond_distortions ⟨defect_dict, [], none⟩ []
  else
    _snb_rattled rattleFn defect_dict d_min? stdev

/-- Key-level effect of a dict insert: an existing key keeps the key
list, a fresh key is appended. -/
def insKey (ks : List String) (k : String) : List String :=
  if k ∈ ks then ks else ks ++ [k]

theorem alInsert_keys {V : Type} (d : List (String × V)) (k : String) (v : V) :
    (alInsert d k v).map Prod.fst = insKey (d.map Prod.fst) k := by
  induction d with
  | nil => simp [alInsert, insKey]
  | cons hd t ih =>
    obtain ⟨k0, v0⟩ := hd
    by_cases h : k0 = k
    · subst h
      simp [alInsert, insKey]
    · have hk : k ∈ (k0 :: t.map Prod.fst) ↔ k ∈ t.map Prod.fst := by
        simp [List.mem_cons]
        intro hkk
        exact absurd hkk.symm h
      by_cases hmem : k ∈ t.map Prod.fst
      · simp [alInsert, h, ih, insKey, hmem, hk]
      · simp [alInsert, h, ih, insKey, hmem, hk]

/-- Folding fresh-key inserts over pairwise-distinct keys appends them
in order. -/
theorem foldl_insKey_of_nodup (g : ℚ → String) (l : List ℚ)
    (ks : List String) (h : (ks ++ l.map g).Nodup) :
    l.foldl (fun a q => insKey a (g q)) ks = ks ++ l.map g := by
  induction l generalizing ks with
  | nil => simp
  | cons q rest ih =>
    have hgq : g q ∉ ks := by
      intro hmem
      have := List.disjoint_of_nodup_append h
      exact this hmem (by simp)
    have hins : insKey ks (g q) = ks ++ [g q] := by
      simp [insKey, hgq]
    rw [List.foldl_cons, hins]
    have h' : ((ks ++ [g q]) ++ rest.map g).Nodup := by
      have : ks ++ (q :: rest).map g = (ks ++ [g q]) ++ rest.map g := by
        simp
      rw [← this]
      exact h
    rw [ih (ks ++ [g q]) h']
    simp

/-- Invariant of the bond-distortion loop: the Unperturbed entry is
never touched, and the distortion keys accumulate by insert-overwrite
from the labels of the rounded fractions. -/
theorem _snb_loop_shape (distortFn : DistortFn) (rattleFn : RattleFn)
    (defect_dict : DefectDict) (k : ℤ) (stdev : ℚ) (d_min? : Option ℚ)
    (de : Option String) (l : List ℚ) :
    ∀ (acc : SnbOut) (ws : List Warn) (out : SnbOut) (ws' : List Warn),
      _snb_loop distortFn rattleFn defect_dict k stdev d_min? de l acc ws
        = .ok (out, ws') →
      out.Unperturbed = acc.Unperturbed
      ∧ out.distortions.map Prod.fst
        = l.foldl
            (fun ks q => insKey ks (_get_distortion_filename (pyRound3 q)))
            (acc.distortions.map Prod.fst) := by
  induction l with
  | nil =>
    intro acc ws out ws' h
    unfold _snb_loop at h
    injection h with h1
    injection h1 with h2 h3
    subst h2
    exact ⟨rfl, rfl⟩
  | cons q rest ih =>
    intro acc ws out ws' h
    unfold _snb_loop at h
    dsimp only at h
    split at h
    · exact absurd h (by simp)
    · obtain ⟨h1, h2⟩ := ih _ _ _ _ h
      refine ⟨h1, ?_⟩
      rw [h2]
      rw [List.foldl_cons]
      congr 1
      exact alInsert_keys _ _ _

/-- C9: shape of the apply_snb_distortions output.  Whenever the call
returns, the result contains the "Unperturbed" entry holding the
original defect dict (and hence its supercell); when the neighbour count
is 0 the distortions mapping is exactly one "Rattled" entry and nothing
else; when the neighbour count is nonzero the distortions keys are
exactly one "Bond_Distortion_<signed-percentage>%" label per configured
fraction, in order (given the labels of the rounded fractions are
pairwise distinct, as they are for any sensible mesh — duplicate labels
would overwrite in the Python dict just as in this model). -/
theorem C9_snb_shape (distortFn : DistortFn) (rattleFn : RattleFn)
    (defect_dict : DefectDict) (k : ℤ) (bond_distortions : List ℚ)
    (stdev : ℚ) (d_min? : Option ℚ) (de : Option String) (out : SnbOut)
    (ws : List Warn)
    (h : apply_snb_distortions distortFn rattleFn defect_dict k
        bond_distortions stdev d_min? de = .ok (out, ws)) :
    out.Unperturbed = defect_dict
    ∧ (k = 0 → ∃ s, out.distortions = [("Rattled", s)])
    ∧ (k ≠ 0 →
        (bond_distortions.map
          (fun q => _get_distortion_filename (pyRound3 q))).Nodup →
        out.distortions.map Prod.fst
          = bond_distortions.map
              (fun q => _get_distortion_filename (pyRound3 q))) := by
  by_cases hk : k = 0
  · subst hk
    unfold apply_snb_distortions at h
    rw [if_neg (by simp)] at h
    obtain ⟨h1, h2⟩ := _snb_rattled_shape rattleFn defect_dict d_min? stdev
      out ws h
    exact ⟨h1, fun _ => h2, fun hne _ => absurd rfl hne⟩
  · unfold apply_snb_distortions at h
    rw [if_pos hk] at h
    obtain ⟨h1, h2⟩ := _snb_loop_shape distortFn rattleFn defect_dict k stdev
      d_min? de bond_distortions _ _ _ _ h
    refine ⟨h1, fun h0 => absurd h0 hk, fun _ hnd => ?_⟩
    rw [h2]
    have := foldl_insKey_of_nodup
      (fun q => _get_distortion_filename (pyRound3 q)) bond_distortions []
      (by simpa using hnd)
    simpa using this

/-- The expected output of the C9 witness run: both fractions land under
their labels, the parameters record the two distorted atoms. -/
def outW : SnbOut :=
  ⟨vacCdDefect,
   [("Bond_Distortion_-50.0%", sW6), ("Bond_Distortion_50.0%", sW6)],
   some ⟨[0, 0, 0], 2, some [(2, "Te")], some 2⟩⟩

/-- C9 witness: the nonzero-neighbour branch at a concrete vacancy with
fractions ±0.5, and the "Rattled" branch at neighbour count 0. -/
theorem C9_snb_shape_witness :
    (outW.Unperturbed = vacCdDefect
      ∧ outW.distortions.map Prod.fst
          = ["Bond_Distortion_-50.0%", "Bond_Distortion_50.0%"])
    ∧ (∃ s, (⟨vacCdDefect,
          [("Rattled", vacCdDefect.supercell.struct)],
          some ⟨[0, 0, 0], 0, none, none⟩⟩
        : SnbOut).distortions = [("Rattled", s)]) := by
  have h1 := C9_snb_shape distortFnW rattleFnW vacCdDefect 2
    [mkRat (-1) 2, mkRat 1 2] 1 (some 2) none outW [] (by decide)
  have h2 := C9_snb_shape distortFnW rattleFnW vacCdDefect 0 [] 1 (some 2)
    none ⟨vacCdDefect, [("Rattled", vacCdDefect.supercell.struct)],
      some ⟨[0, 0, 0], 0, none, none⟩⟩ [] (by decide)
  exact ⟨⟨h1.1, h1.2.2 (by decide) (by decide)⟩, h2.2.1 rfl⟩

/-- The ceiling of a/b for positive rationals, via floor division on the
cross-multiplied integers. -/
def qceilDiv (a b : ℚ) : ℤ := -(Int.fdiv (-(a.num * b.den)) (b.num * a.den))

/-- np.arange(0, stop, step) for positive step: the values i*step for
0 ≤ i < ⌈stop/step⌉ (exact-rational model of the float arange; the
0.601 endpoint used below keeps the float edge cases away from the
boundary). -/
def arange0 (stop step : ℚ) : List ℚ :=
  (List.range (qceilDiv stop step).toNat).map
    (fun i => qmul (Rat.divInt (i : ℤ) 1) step)

/-- The default bond-distortion mesh of Distortions.__init__ (input.py
lines 628-634): list(np.flip(np.around(np.arange(0, 0.601, increment),
3))*-1)[:-1] — the descending negatives, the trailing negative zero
dropped — concatenated with the ascending non-negative list. -/
def defaultBondDistortions (increment : ℚ) : List ℚ :=
  let pos := (arange0 (mkRat 601 1000) increment).map pyRound3
  ((pos.reverse.map Neg.neg).dropLast) ++ pos

/-- The state held by a Distortions instance after __init__ (input.py
lines 563-646): the fields the methods read, including the initial
distortion metadata. -/
structure DistortionsState where
  defects_dict : List (String × List DefectDict)
  oxidation_states : OxMap
  distorted_elements : Option (List (String × String))
  dict_number_electrons_user : Option (List (String × ℤ))
  stdev : ℚ
  distortion_increment : Option ℚ
  bond_distortions : List ℚ
  distortion_metadata : Metadata
deriving DecidableEq

/-- Distortions.__init__ (input.py lines 570-646), modelled at the call
protocol level: oxidation_states is the second required positional
parameter with no default, so a call site omitting it (Option.none)
raises TypeError before the body runs — there is no oxidation-state
guessing logic anywhere in input.py.  The body selects the
bond-distortion mesh (a user-given list, rounded to 3 decimals, disables
the increment; Python's `if bond_distortions` treats an empty list like
an absent one) and creates the initial distortion metadata. -/
def Distortions_init (defects_dict : List (String × List DefectDict))
    (oxidation_states? : Option OxMap)
    (dict_number_electrons_user : Option (List (String × ℤ)) := none)
    (distortion_increment : ℚ := mkRat 1 10)
    (bond_distortions? : Option (List ℚ) := none)
    (stdev : ℚ := mkRat 1 4)
    (distorted_elements : Option (List (String × String)) := none) :
    Except PyErr DistortionsState :=
  match oxidation_states? with
  | none => .error (.typeError
      "__init__ missing 1 required positional argument: oxidation_states")
  | some oxidation_states =>
    let incAndMesh : Option ℚ × List ℚ :=
      match bond_distortions? with
      | some l =>
        if l ≠ [] then (none, l.map pyRound3)
        else (some distortion_increment,
              defaultBondDistortions distortion_increment)
      | none => (some distortion_increment,
                 defaultBondDistortions distortion_increment)
    .ok { defects_dict := defects_dict
          oxidation_states := oxidation_states
          distorted_elements := distorted_elements
          dict_number_electrons_user := dict_number_electrons_user
          stdev := stdev
          distortion_increment := incAndMesh.1
          bond_distortions := incAndMesh.2
          distortion_metadata :=
            { distortion_parameters :=
                { distortion_increment := incAndMesh.1
                  bond_distortions := incAndMesh.2
                  rattle_stdev := stdev }
              defects := [] } }

/-- C5: the engine derives no best-guess oxidation states.
oxidation_states is a required positional parameter of
Distortions.__init__ and input.py contains no guessing logic or
informational listing: constructing the orchestrator without supplying
the mapping raises TypeError rather than deriving values, and when a
mapping is supplied the instance holds exactly that mapping. -/
theorem C5_init_requires_oxidation_states :
    Distortions_init [] none
      = .error (.typeError
          "__init__ missing 1 required positional argument: oxidation_states")
    ∧ ∀ dd ox, ∃ st, Distortions_init dd (some ox) = .ok st
        ∧ st.oxidation_states = ox := by
  exact ⟨rfl, fun dd ox => ⟨_, rfl, rfl⟩⟩

/-- Distortions._parse_distorted_element (input.py lines 648-676).
Python's `if distorted_elements` treats an empty dict as absent.  The
except KeyError handler calls warnings.warn with three positional string
arguments; the second becomes warn's category argument, which must be a
Warning subclass, so the handler itself raises TypeError. -/
def _parse_distorted_element (defect_name : String)
    (distorted_elements : Option (List (String × String))) :
    Except PyErr (Option String) :=
  match distorted_elements with
  | none => .ok none
  | some des =>
    if des = [] then .ok none
    else
      match alLookup des defect_name with
      | some e => .ok (some e)
      | none => .error (.typeError "warnings.warn category must be a Warning")

/-- Distortions._parse_number_electrons (input.py lines 678-718): the
(nonempty) user dict overrides; otherwise calc_number_electrons runs,
whose in-place Vac insertion updates the stored oxidation states. -/
def _parse_number_electrons (defect_name : String) (ox : OxMap)
    (dict_number_electrons_user : Option (List (String × ℤ)))
    (defect : DefectDict) : (Except PyErr ℤ) × OxMap :=
  match dict_number_electrons_user with
  | some u =>
    if u ≠ [] then
      ((match alLookup u defect_name with
        | some n => .ok n
        | none => .error .keyError), ox)
    else calc_number_electrons defect ox
  | none => calc_number_electrons defect ox

/-- Distortions._update_distortion_metadata (input.py lines 754-785):
record the defect_site_index when truthy and insert the charge entry,
carrying the run's bond_distortions and rattle_stdev.  The defect entry
is assumed present (apply_distortions inserts it just before). -/
def _update_distortion_metadata (bond_distortions : List ℚ) (stdev : ℚ)
    (md : Metadata) (defect_name : String) (charge : ℤ)
    (defect_site_index : Option ℕ) (num_nearest_neighbours : ℤ)
    (distorted_atoms : Option (List (ℕ × String))) : Metadata :=
  { md with defects := md.defects.map (fun p =>
      if p.1 = defect_name then
        (p.1,
         { p.2 with
           defect_site_index :=
             (match defect_site_index with
              | some i => if i ≠ 0 then some i else p.2.defect_site_index
              | none => p.2.defect_site_index)
           charges := alInsert p.2.charges charge
             { num_nearest_neighbours := num_nearest_neighbours
               distorted_atoms := distorted_atoms
               distortion_parameters :=
                 { bond_distortions := bond_distortions
                   rattle_stdev := some stdev } } })
      else p) }

/-- The per-charge structures sub-dict stored by apply_distortions
(input.py lines 904-907). -/
structure ChargeStructures where
  Unperturbed : Structure
  distortions : List (String × Structure)
deriving DecidableEq

/-- One defect's entry in the distorted_defects_dict built by
apply_distortions: the general info of _setup_distorted_defect_dict plus
the per-charge structures (none models the initial empty dict). -/
structure DistortedDefectEntry where
  defect_type : String
  defect_site : PSite
  defect_supercell_site : PSite
  defect_multiplicity : ℕ
  supercell_size : List ℤ
  substitution_specie : Option String
  charges : List (ℤ × Option ChargeStructures)
deriving DecidableEq

/-- Distortions._setup_distorted_defect_dict (input.py lines 797-816):
the general (neutral) defect info; note the source stores the defect's
NAME under the "defect_type" key, and adds substitution_specie only when
the defect dict has it. -/
def _setup_distorted_defect_dict (defect : DefectDict) :
    DistortedDefectEntry :=
  { defect_type := defect.name
    defect_site := defect.unique_site
    defect_supercell_site := defect.bulk_supercell_site
    defect_multiplicity := defect.site_multiplicity
    supercell_size := defect.supercell.size
    substitution_specie := defect.substitution_specie
    charges := defect.charges.map (fun c => (c, none)) }

/-- The per-charge step of Distortions.apply_distortions (input.py
lines 885-922): derive the neighbour count for the charge, run
apply_snb_distortions, store the structures under the charge, and update
the metadata.  Reading distortion_parameters["distorted_atoms"] raises
KeyError when that dict was never filled (nonzero neighbour count with
an empty bond-distortion mesh). -/
def _apply_one_charge (distortFn : DistortFn) (rattleFn : RattleFn)
    (bond_distortions : List ℚ) (stdev : ℚ) (defect : DefectDict)
    (defect_name : String) (distorted_element : Option String)
    (number_electrons : ℤ) (entry : DistortedDefectEntry) (md : Metadata)
    (charge : ℤ) :
    Except PyErr (DistortedDefectEntry × Metadata × List Warn) :=
  let num_nearest_neighbours :=
    _get_number_distorted_neighbours number_electrons charge
  match apply_snb_distortions distortFn rattleFn defect
      num_nearest_neighbours bond_distortions stdev none distorted_element with
  | .error e => .error e
  | .ok (snb, ws) =>
    let structures : ChargeStructures :=
      { Unperturbed := snb.Unperturbed.supercell.struct
        distortions := snb.distortions }
    let entry' :=
      { entry with charges := alInsert entry.charges charge (some structures) }
    match snb.distortion_parameters with
    | none => .error .keyError
    | some ps =>
      .ok (entry',
           _update_distortion_metadata bond_distortions stdev md defect_name
             charge ps.defect_site_index num_nearest_neighbours
             ps.distorted_atoms,
           ws)

/-- The charge loop of apply_distortions (input.py line 885). -/
def _apply_charges (distortFn : DistortFn) (rattleFn : RattleFn)
    (bond_distortions : List ℚ) (stdev : ℚ) (defect : DefectDict)
    (defect_name : String) (distorted_element : Option String)
    (number_electrons : ℤ) :
    List ℤ → DistortedDefectEntry → Metadata → List Warn →
    Except PyErr (DistortedDefectEntry × Metadata × List Warn)
  | [], entry, md, ws => .ok (entry, md, ws)
  | charge :: rest, entry, md, ws =>
    match _apply_one_charge distortFn rattleFn bond_distortions stdev defect
        defect_name distorted_element number_electrons entry md charge with
    | .error e => .error e
    | .ok (entry', md', ws') =>
      _apply_charges distortFn rattleFn bond_distortions stdev defect
        defect_name distorted_element number_electrons rest entry' md'
        (ws ++ ws')

/-- The per-defect step of Distortions.apply_distortions (input.py lines
857-922): parse the distorted element, parse or compute the electron
count (threading the in-place oxidation-state mutation), register the
defect in the metadata and the output dict, and process every charge
state. -/
def _apply_one_defect (distortFn : DistortFn) (rattleFn : RattleFn)
    (bond_distortions : List ℚ) (stdev : ℚ)
    (distorted_elements : Option (List (String × String)))
    (dict_number_electrons_user : Option (List (String × ℤ)))
    (ddict : List (String × DistortedDefectEntry)) (md : Metadata)
    (ox : OxMap) (ws : List Warn) (defect : DefectDict) :
    Except PyErr
      ((List (String × DistortedDefectEntry)) × Metadata × OxMap × List Warn) :=
  let defect_name := defect.name
  match _parse_distorted_element defect_name distorted_elements with
  | .error e => .error e
  | .ok distorted_element =>
    match _parse_number_electrons defect_name ox dict_number_electrons_user
        defect with
    | (.error e, _) => .error e
    | (.ok number_electrons, ox') =>
      let md1 := { md with
        defects := alInsert md.defects defect_name
          { unique_site := defect.bulk_supercell_site.frac_coords
            defect_site_index := none
            charges := [] } }
      match _apply_charges distortFn rattleFn bond_distortions stdev defect
          defect_name distorted_element number_electrons defect.charges
          (_setup_distorted_defect_dict defect) md1 [] with
      | .error e => .error e
      | .ok (entry, md2, ws2) =>
        .ok (alInsert ddict defect_name entry, md2, ox', ws ++ ws2)

/-- The defect loop of apply_distortions. -/
def _apply_defects (distortFn : DistortFn) (rattleFn : RattleFn)
    (bond_distortions : List ℚ) (stdev : ℚ)
    (distorted_elements : Option (List (String × String)))
    (dict_number_electrons_user : Option (List (String × ℤ))) :
    List DefectDict →
    (List (String × DistortedDefectEntry)) → Metadata → OxMap → List Warn →
    Except PyErr
      ((List (String × DistortedDefectEntry)) × Metadata × OxMap × List Warn)
  | [], ddict, md, ox, ws => .ok (ddict, md, ox, ws)
  | defect :: rest, ddict, md, ox, ws =>
    match _apply_one_defect distortFn rattleFn bond_distortions stdev
        distorted_elements dict_number_electrons_user ddict md ox ws defect with
    | .error e => .error e
    | .ok (ddict', md', ox', ws') =>
      _apply_defects distortFn rattleFn bond_distortions stdev
        distorted_elements dict_number_electrons_user rest ddict' md' ox' ws'

/-- Distortions.apply_distortions (input.py lines 818-924), parametrised
by the distort and rattle collaborators: concatenate the defect lists of
every non-"bulk" category of the defects dict and process each defect
and each of its charge states, accumulating the distorted-structures
dict, the distortion metadata and the warnings; the oxidation-state
mapping (mutated in place by calc_number_electrons) is returned
alongside.  No post-processing of any kind follows the sweep — in
particular no minimum-distance filter. -/
def Distortions_apply_distortions (distortFn : DistortFn)
    (rattleFn : RattleFn) (st : DistortionsState) :
    Except PyErr
      ((List (String × DistortedDefectEntry)) × Metadata × OxMap × List Warn) :=
  let comb_defs :=
    (st.defects_dict.filter (fun p => p.1 ≠ "bulk")).flatMap Prod.snd
  _apply_defects distortFn rattleFn st.bond_distortions st.stdev
    st.distorted_elements st.dict_number_electrons_user comb_defs []
    st.distortion_metadata st.oxidation_states []

/-- The two-site structure that the -100% distortion produces in the C4
scenario: its two atoms sit 0.5 Angstrom apart and no hydrogen is
present. -/
def sLow : Structure := ⟨["Cd", "Te"], [[0, mkRat 1 2], [mkRat 1 2, 0]]⟩

/-- The distort output of the C4 scenario (vacancy: no site index). -/
def doutLow : DistortOut := ⟨sLow, sC7, [(2, "Te")], none⟩

/-- A distort collaborator producing the collapsed structure sLow. -/
def distortFnC4 : DistortFn := fun _ => .ok doutLow

/-- A rattle collaborator that always succeeds, returning its input
structure unchanged. -/
def okRattleFn : RattleFn := fun args => .ok args.struct

/-- The C4 defect: a cadmium vacancy in the 6-site supercell sC7, with
the single charge state 0. -/
def defectC4 : DefectDict where
  name := "vac_1_Cd"
  defect_type := "vacancy"
  site_specie := "Cd"
  unique_site := ⟨[0, 0, 0]⟩
  bulk_supercell_site := ⟨[0, 0, 0]⟩
  site_multiplicity := 1
  supercell := ⟨[2, 2, 2], sC7⟩
  charges := [0]

/-- The orchestrator state of the C4 scenario: one vacancy category, the
single bond distortion -1.0 (a -100% distortion, factor 0). -/
def stC4 : DistortionsState where
  defects_dict := [("vacancies", [defectC4])]
  oxidation_states := [("Cd", 2), ("Te", -2)]
  distorted_elements := none
  dict_number_electrons_user := none
  stdev := mkRat 1 4
  distortion_increment := none
  bond_distortions := [-1]
  distortion_metadata := ⟨⟨none, [-1], mkRat 1 4⟩, []⟩

/-- Observer: the structure stored in an apply_distortions result for a
given defect, charge and distortion label. -/
def _result_distortion
    (r : Except PyErr
      ((List (String × DistortedDefectEntry)) × Metadata × OxMap × List Warn))
    (defect_name : String) (charge : ℤ) (label : String) : Option Structure :=
  match r with
  | .error _ => none
  | .ok res =>
    match alLookup res.1 defect_name with
    | none => none
    | some entry =>
      match alLookup entry.charges charge with
      | some (some cs) => alLookup cs.distortions label
      | _ => none

/-- Observer: the warnings of an apply_distortions result. -/
def _result_warns
    (r : Except PyErr
      ((List (String × DistortedDefectEntry)) × Metadata × OxMap × List Warn)) :
    Option (List Warn) :=
  match r with
  | .error _ => none
  | .ok res => some res.2.2.2

/-- C4: apply_distortions has no sub-Angstrom post-hoc filter.  In the
concrete sweep below, the -100% bond distortion of the cadmium vacancy
produces a structure whose minimum interatomic distance is 0.5 Angstrom
(the sorted flattened distance matrix at index numSites) and which
contains no hydrogen; yet the outcome is retained in the returned
results under its label and no warning of any kind is emitted — whereas
the claim (and src/tests/test_input.py::test_apply_distortions) requires
such an outcome to be removed with a warning naming it. -/
theorem C4_no_subangstrom_filter :
    _result_distortion
        (Distortions_apply_distortions distortFnC4 okRattleFn stC4)
        "vac_1_Cd" 0 "Bond_Distortion_-100.0%" = some sLow
    ∧ _result_warns
        (Distortions_apply_distortions distortFnC4 okRattleFn stC4) = some []
    ∧ (sortQ sLow.distMat.flatten).get? sLow.numSites = some (mkRat 1 2)
    ∧ (mkRat 1 2 : ℚ) < 1
    ∧ sLow.species.contains "H" = false := by
  refine ⟨by decide, by decide, by decide, by decide, by decide⟩

end SnB
